import Mathlib

/-!
Shallow embedding of the ISKOnnect backend (Go) for specification checking.

The repository contains two iterations of the same backend:
- an integer-keyed iteration (models in `src/unnamed/part_004`, handlers in
  `src/unnamed/part_001`, JWT utilities in the last section of
  `src/unnamed/part_007`, middleware in
  `src/backend/internal/api/middleware/auth.go`), embedded below in the
  namespaces `ModelsB`, `HandlersB` and `Middleware`;
- a string-keyed iteration (models in `src/unnamed/part_005` and the user-model
  half of `src/backend/internal/models/material.go`, handlers in
  `src/backend/internal/api/handlers/auth.go`), embedded below in the
  namespaces `ModelsA` and `HandlersA`.

The material/vote model (`MaterialModel` in
`src/backend/internal/models/material.go`) is embedded in namespace
`MaterialModel`.

Database tables are embedded as Lean lists of rows; SQL statements become the
corresponding list transformations.  Timestamp columns that no claim reads
(`created_at`, `updated_at`, `awarded_at`) are omitted from the row types;
`expires_at` columns and the vote `created_at` column are kept because the code
reads or rewrites them.  Database transactions are embedded by computing on a
local copy of the state and publishing it only at the commit point; statements
executed outside a transaction publish immediately.  Possible database errors
are injected through an explicit failure oracle where a claim depends on them.
Bcrypt hashing and HMAC signing are embedded symbolically: a hash or signature
is a constructor application remembering its inputs, so two of them are equal
exactly when their inputs are equal.
-/

namespace ISKOnnect

/-- Symbolic bcrypt digest: `utils.HashPassword` in `src/unnamed/part_007`.
The digest remembers the hashed password, so `checkPassword` succeeds exactly
on the original password (idealised collision freeness of bcrypt). -/
structure BcryptHash where
  pw : String
deriving DecidableEq

/-- Embedding of `utils.HashPassword` (bcrypt.GenerateFromPassword). -/
def hashPassword (password : String) : BcryptHash := ⟨password⟩

/-- Embedding of `utils.CheckPassword` (bcrypt.CompareHashAndPassword):
returns `true` when the comparison yields a nil error. -/
def checkPassword (hash : BcryptHash) (password : String) : Bool :=
  hash == hashPassword password

/-! ## JWT model (`src/unnamed/part_007`, `src/backend/internal/utils/jwt.go`) -/

/-- Signing algorithm named in a token header.  `HS256`, `HS384` and `HS512`
are the members of the HMAC family (`jwt.SigningMethodHMAC`); `RS256` and
`algNone` stand for the non-HMAC methods an attacker could put in a header. -/
inductive Alg
  | HS256
  | HS384
  | HS512
  | RS256
  | algNone
deriving DecidableEq

/-- Check used by the key function of `ValidateJWT`: the Go code accepts the
token only when `token.Method` is a `*jwt.SigningMethodHMAC`. -/
def Alg.isHMAC : Alg → Bool
  | .HS256 => true
  | .HS384 => true
  | .HS512 => true
  | _ => false

/-- Claims carried by a token: `JWTClaims` in `src/unnamed/part_007`
(`user_id`, `is_student`, plus the registered `exp`, `iat` and `sub` claims).
Times are seconds since the epoch. -/
structure JWTClaims where
  userID : Nat
  isStudent : Bool
  exp : Nat
  iat : Nat
  sub : String
deriving DecidableEq

/-- Symbolic MAC value: an HMAC signature is determined by the algorithm, the
signed payload and the key, and two signatures agree exactly when those
inputs agree. -/
structure SigVal where
  alg : Alg
  payload : JWTClaims
  key : String
deriving DecidableEq

/-- Symbolic signing operation used by `token.SignedString(secret)`. -/
def sign (alg : Alg) (payload : JWTClaims) (key : String) : SigVal :=
  ⟨alg, payload, key⟩

/-- Wire form of a token as seen by `ValidateJWT`: either a string that does
not parse as a JWT at all, or a parsed header algorithm, claims and
signature. -/
inductive Token
  | malformed (raw : String)
  | wellFormed (alg : Alg) (claims : JWTClaims) (sig : SigVal)
deriving DecidableEq

/-- Error cases of `ValidateJWT` (the Go code returns them as `error`
values). -/
inductive JWTError
  | malformedToken
  | unexpectedMethod
  | badSignature
  | expired
deriving DecidableEq

/-- Embedding of `utils.GenerateJWT` from `src/unnamed/part_007`: signs
HS256 claims carrying the user id and role with the given secret;
`expiryHours` hours of validity from `now`. -/
def generateJWT (userID : Nat) (isStudent : Bool) (secret : String)
    (expiryHours : Nat) (now : Nat) : Token :=
  let claims : JWTClaims :=
    { userID := userID
      isStudent := isStudent
      exp := now + expiryHours * 3600
      iat := now
      sub := toString userID }
  .wellFormed .HS256 claims (sign .HS256 claims secret)

/-- Embedding of `utils.ValidateJWT` from `src/unnamed/part_007`: parsing
rejects malformed input, the key function rejects non-HMAC methods, signature
verification compares against the HMAC of the payload under `secret`, and
claim validation rejects an expiry that has passed. -/
def validateJWT (tok : Token) (secret : String) (now : Nat) :
    Except JWTError JWTClaims :=
  match tok with
  | .malformed _ => .error .malformedToken
  | .wellFormed alg claims sig =>
    if ¬ alg.isHMAC then .error .unexpectedMethod
    else if sig ≠ sign alg claims secret then .error .badSignature
    else if claims.exp ≤ now then .error .expired
    else .ok claims

/-- True when a validation result is an error (no claims value returned). -/
def isErr {ε α : Type} : Except ε α → Bool
  | .error _ => true
  | .ok _ => false

/-! ## Vote model (`MaterialModel` in `src/backend/internal/models/material.go`) -/

namespace MaterialModel

/-- Vote type column: `vote_type IN ('UPVOTE', 'DOWNVOTE')`. -/
inductive VoteType
  | upvote
  | downvote
deriving DecidableEq

/-- Row of the `votes` table.  The schema enforces `UNIQUE (material_id,
user_id)`; the embedding of `Vote` below maintains it. -/
structure VoteRow where
  materialId : Nat
  userId : String
  voteType : VoteType
  createdAt : Nat
deriving DecidableEq

/-- Key predicate of the unique constraint on `(material_id, user_id)`. -/
def sameKey (materialId : Nat) (userId : String) (r : VoteRow) : Bool :=
  r.materialId == materialId && r.userId == userId

/-- Action of the `DO UPDATE SET vote_type = $3, created_at = $4` clause on
one row: rows matching the conflicting key are rewritten, others are kept. -/
def updRow (materialId : Nat) (userId : String) (voteType : VoteType)
    (now : Nat) (r : VoteRow) : VoteRow :=
  if sameKey materialId userId r then
    { r with voteType := voteType, createdAt := now }
  else r

/-- Embedding of `MaterialModel.Vote`: `INSERT ... ON CONFLICT (material_id,
user_id) DO UPDATE SET vote_type = $3, created_at = $4`.  When a row with the
key exists it is updated in place, otherwise a row is appended. -/
def vote (rows : List VoteRow) (materialId : Nat) (userId : String)
    (voteType : VoteType) (now : Nat) : List VoteRow :=
  if rows.any (sameKey materialId userId) then
    rows.map (updRow materialId userId voteType now)
  else rows ++ [⟨materialId, userId, voteType, now⟩]

/-- Embedding of the derived vote count computed by `MaterialModel.GetByID`:
`COUNT(*) FILTER (WHERE vote_type = 'UPVOTE') - COUNT(*) FILTER (WHERE
vote_type = 'DOWNVOTE')` over the votes of one material. -/
def getVoteCount (rows : List VoteRow) (materialId : Nat) : Int :=
  ((rows.filter fun r =>
      r.materialId == materialId && r.voteType == .upvote).length : Int)
  - ((rows.filter fun r =>
      r.materialId == materialId && r.voteType == .downvote).length : Int)

/-- Number of rows currently stored under one `(material_id, user_id)` key. -/
def keyCount (rows : List VoteRow) (materialId : Nat) (userId : String) : Nat :=
  (rows.filter (sameKey materialId userId)).length

end MaterialModel

/-! ## String-keyed user model (`src/unnamed/part_005`, duplicated in the user
half of `src/backend/internal/models/material.go`) -/

namespace ModelsA

/-- Row of the `badges` table in the string-keyed schema (`requirement_points`
column).  `image_url` and `description` are never read by the modelled code
paths and are omitted. -/
structure Badge where
  id : Nat
  name : String
  requirementPoints : Int
deriving DecidableEq

/-- Row of the `users` table restricted to the columns the modelled operations
read or write (`id`, `points`, `email_verified`). -/
structure UserRow where
  id : String
  points : Int
  emailVerified : Bool
deriving DecidableEq

/-- Stored state of the string-keyed iteration: the tables touched by the
points/badges engine.  `userBadges` is the `user_badges` ledger of
`(user_id, badge_id)` pairs with primary key on the pair. -/
structure DB where
  users : List UserRow
  badges : List Badge
  userBadges : List (String × Nat)
deriving DecidableEq

/-- Points of a user as read by `UserModel.GetByID` (`none` when the
`SELECT ... WHERE id = $1` returns no row). -/
def getPoints (db : DB) (userID : String) : Option Int :=
  (db.users.find? (fun r => r.id == userID)).map (·.points)

/-- Embedding of `UserModel.UpdatePoints` (part_005): `UPDATE users SET
points = points + $1 WHERE id = $3`, executed directly on the connection, so
it publishes immediately; a missing user makes it a no-op with a nil error. -/
def updatePoints (db : DB) (userID : String) (points : Int) : DB :=
  { db with
    users := db.users.map fun r =>
      if r.id == userID then { r with points := r.points + points } else r }

/-- True when the ledger already holds `(userID, badgeID)`. -/
def holdsBadge (db : DB) (userID : String) (badgeID : Nat) : Bool :=
  db.userBadges.any fun p => p.1 == userID && p.2 == badgeID

/-- Embedding of `UserModel.AssignBadge` (part_005): `INSERT INTO user_badges
... ON CONFLICT (user_id, badge_id) DO NOTHING`.  The second component is the
Go error result: `true` means a nil error; the conflict case is swallowed by
the `ON CONFLICT` clause, so absent an injected database fault the statement
always succeeds. -/
def assignBadge (db : DB) (userID : String) (badgeID : Nat) : DB × Bool :=
  if holdsBadge db userID badgeID then (db, true)
  else ({ db with userBadges := db.userBadges ++ [(userID, badgeID)] }, true)

/-- Badges returned by the qualification query of `CheckAndAssignBadges`:
`requirement_points <= $2` and not already held (the `LEFT JOIN ... IS NULL`
filter). -/
def qualifyingBadges (db : DB) (userID : String) (points : Int) : List Badge :=
  db.badges.filter fun b =>
    decide (b.requirementPoints ≤ points) && ¬ holdsBadge db userID b.id

/-- Statements of the part_005 points/badges pipeline at which a database
error can occur; used by the failure oracle. -/
inductive StepA
  | updatePointsStep
  | getUserStep
  | badgeQueryStep
  | assignBadgeStep
deriving DecidableEq

/-- Embedding of `UserModel.IncrementPointsAndCheckBadges` (part_005): calls
`UpdatePoints` and then `CheckAndAssignBadges`, with no surrounding
transaction — every statement publishes as soon as it runs.  `fail` injects a
database error at the given step.  Returns the stored state after the call
together with the success flag (`true` = nil error). -/
def incrementPointsAndCheckBadges (fail : StepA → Bool) (db : DB)
    (userID : String) (points : Int) : DB × Bool :=
  if fail .updatePointsStep then (db, false)
  else
    let db1 := updatePoints db userID points
    if fail .getUserStep then (db1, false)
    else
      match getPoints db1 userID with
      | none => (db1, false)
      | some pts =>
        if fail .badgeQueryStep then (db1, false)
        else
          let qual := qualifyingBadges db1 userID pts
          if fail .assignBadgeStep then (db1, false)
          else (qual.foldl (fun s b => (assignBadge s userID b.id).1) db1, true)

end ModelsA

/-! ## Integer-keyed user model (`src/unnamed/part_004`) -/

namespace ModelsB

/-- Row of the `badges` table in the integer-keyed schema (`points_required`
column). -/
structure Badge where
  id : Nat
  pointsRequired : Int
deriving DecidableEq

/-- Row of the `users` table restricted to the columns the modelled operations
read or write. -/
structure UserRow where
  id : Nat
  studentNumber : String
  firstName : String
  lastName : String
  email : String
  isStudent : Bool
  points : Int
  emailVerified : Bool
deriving DecidableEq

/-- Row of the `user_credentials` table (`id SERIAL`, unique email, bcrypt
hash). -/
structure CredRow where
  id : Nat
  email : String
  passwordHash : BcryptHash
deriving DecidableEq

/-- Row of the `email_verifications` table. -/
structure VerifRow where
  userId : Nat
  token : String
  expiresAt : Nat
deriving DecidableEq

/-- Row of the `reset_tokens` table (`id SERIAL`); holds both OTPs and reset
tokens in the integer-keyed iteration. -/
structure ResetRow where
  id : Nat
  userId : Nat
  token : String
  expiresAt : Nat
deriving DecidableEq

/-- Stored state of the integer-keyed iteration.  `nextCredId` and
`nextResetId` model the `SERIAL` sequences behind `RETURNING id` and the
`reset_tokens` primary key. -/
structure DB where
  credentials : List CredRow
  users : List UserRow
  emailVerifications : List VerifRow
  resetTokens : List ResetRow
  badges : List Badge
  userBadges : List (Nat × Nat)
  nextCredId : Nat
  nextResetId : Nat
deriving DecidableEq

/-- Embedding of `UserModel.GetByID` (part_004). -/
def getByID (db : DB) (id : Nat) : Option UserRow :=
  db.users.find? fun r => r.id == id

/-- Embedding of `UserModel.GetByStudentNumber` (part_004):
`SELECT ... WHERE student_number = $1`. -/
def getByStudentNumber (db : DB) (studentNumber : String) : Option UserRow :=
  db.users.find? fun r => r.studentNumber == studentNumber

/-- Embedding of `UserModel.GetPasswordHash` (part_004):
`SELECT password_hash FROM user_credentials WHERE id = $1`. -/
def getPasswordHash (db : DB) (userID : Nat) : Option BcryptHash :=
  (db.credentials.find? fun r => r.id == userID).map (·.passwordHash)

/-- Points of a user as read through `getByID`. -/
def getPoints (db : DB) (userID : Nat) : Option Int :=
  (getByID db userID).map (·.points)

/-- Embedding of `UserModel.VerifyEmail` (part_004): `UPDATE users SET
email_verified = true WHERE id = $2`. -/
def verifyEmail (db : DB) (userID : Nat) : DB :=
  { db with
    users := db.users.map fun r =>
      if r.id == userID then { r with emailVerified := true } else r }

/-- True when the ledger already holds `(userID, badgeID)`. -/
def holdsBadge (db : DB) (userID : Nat) (badgeID : Nat) : Bool :=
  db.userBadges.any fun p => p.1 == userID && p.2 == badgeID

/-- Badges returned by the qualification query inside
`IncrementPointsAndCheckBadges` (part_004): `points_required <= $1 AND id NOT
IN (SELECT badge_id FROM user_badges WHERE user_id = $2)`. -/
def qualifyingBadges (db : DB) (userID : Nat) (points : Int) : List Badge :=
  db.badges.filter fun b =>
    decide (b.pointsRequired ≤ points) && ¬ holdsBadge db userID b.id

/-- Write of `UPDATE users SET points = points + $1 WHERE id = $3` on the
transaction-local state. -/
def setPointsPlus (db : DB) (userID : Nat) (delta : Int) : DB :=
  { db with
    users := db.users.map fun r =>
      if r.id == userID then { r with points := r.points + delta } else r }

/-- Statements of the part_004 points/badges transaction at which a database
error can occur; used by the failure oracle. -/
inductive StepB
  | beginTx
  | updateReturning
  | badgeQuery
  | insertBadge
  | commitTx
deriving DecidableEq

/-- Embedding of `UserModel.IncrementPointsAndCheckBadges` (part_004): one
transaction that increments the points (`UPDATE ... RETURNING points`), reads
the updated total, selects the qualifying badges and inserts one ledger row
per badge, then commits.  All writes act on the transaction-local state; the
deferred `Rollback` means any error path publishes nothing, so the stored
state returned on failure is the input `db`.  A missing user row surfaces as
the scan error of `RETURNING points`.  Returns the stored state after the
call together with the success flag. -/
def incrementPointsAndCheckBadges (fail : StepB → Bool) (db : DB)
    (userID : Nat) (points : Int) : DB × Bool :=
  if fail .beginTx then (db, false)
  else
    match getPoints db userID with
    | none => (db, false)
    | some p =>
      if fail .updateReturning then (db, false)
      else
        let newPoints := p + points
        let tx1 := setPointsPlus db userID points
        if fail .badgeQuery then (db, false)
        else
          let qual := qualifyingBadges tx1 userID newPoints
          if fail .insertBadge then (db, false)
          else
            let tx2 :=
              { tx1 with
                userBadges := tx1.userBadges ++ qual.map fun b => (userID, b.id) }
            if fail .commitTx then (db, false) else (tx2, true)

/-- Predicate of the `VerifyOTP` lookup: `user_id = $1 AND token = $2 AND
expires_at > NOW()` — a stored, unexpired token row for the user. -/
def otpMatches (now : Nat) (userID : Nat) (otp : String) (r : ResetRow) :
    Bool :=
  r.userId == userID && r.token == otp && decide (now < r.expiresAt)

/-- Embedding of `UserModel.VerifyOTP` (part_004): `SELECT id FROM
reset_tokens WHERE user_id = $1 AND token = $2 AND expires_at > NOW()`
followed, when a row is found, by `DELETE FROM reset_tokens WHERE id = $1` on
that row id.  Returns the stored state and the success flag (`false` covers
the `sql.ErrNoRows` case). -/
def verifyOTP (db : DB) (now : Nat) (userID : Nat) (otp : String) :
    DB × Bool :=
  match db.resetTokens.find? (otpMatches now userID otp) with
  | none => (db, false)
  | some r =>
    ({ db with resetTokens := db.resetTokens.filter fun r2 => r2.id != r.id },
      true)

end ModelsB

/-! ## Request validation helpers (`src/unnamed/part_001`) -/

/-- Embedding of `isValidStudentNumber` (part_001), the anchored pattern of
four digits, a dash, five digits, a dash, two ASCII capitals, a dash and one
digit. -/
def isValidStudentNumber (s : String) : Bool :=
  match s.toList with
  | [a, b, c, d, h1, e, f, g, i, j, h2, k, l, h3, m] =>
    a.isDigit && b.isDigit && c.isDigit && d.isDigit && h1 == '-' &&
    e.isDigit && f.isDigit && g.isDigit && i.isDigit && j.isDigit &&
    h2 == '-' && k.isUpper && l.isUpper && h3 == '-' && m.isDigit
  | _ => false

namespace HandlersB

/-- Body of a login request. -/
structure LoginRequest where
  studentNumber : String
  password : String
deriving DecidableEq

/-- HTTP outcome of `AuthHandler.Login` (part_001). -/
inductive LoginResult
  | badRequest
  | unauthorizedCredentials
  | unauthorizedUnverified
  | internalError
  | ok (userId : Nat) (accessToken : Token) (refreshToken : Token)
deriving DecidableEq

/-- Embedding of `AuthHandler.Login` (part_001): validates the student number
format and a non-empty password, looks the user up by student number, rejects
an unverified email with 401, checks the bcrypt hash, and on success issues a
24-hour access token and a 168-hour refresh token signed with the configured
secret.  Both `unauthorizedCredentials` and `unauthorizedUnverified` are HTTP
401 responses. -/
def login (db : ModelsB.DB) (secret : String) (now : Nat)
    (req : LoginRequest) : LoginResult :=
  if ¬ isValidStudentNumber req.studentNumber then .badRequest
  else if req.password == "" then .badRequest
  else
    match ModelsB.getByStudentNumber db req.studentNumber with
    | none => .unauthorizedCredentials
    | some user =>
      if ¬ user.emailVerified then .unauthorizedUnverified
      else
        match ModelsB.getPasswordHash db user.id with
        | none => .unauthorizedCredentials
        | some hash =>
          if ¬ checkPassword hash req.password then .unauthorizedCredentials
          else
            .ok user.id
              (generateJWT user.id user.isStudent secret 24 now)
              (generateJWT user.id user.isStudent secret 168 now)

end HandlersB

/-! ## Handlers of the string-keyed iteration
(`src/backend/internal/api/handlers/auth.go`) -/

namespace HandlersA

/-- Stored state used by the string-keyed auth handlers: the users and
credential tables keyed by the student-number string, plus the reset-token
store (which this iteration of the handlers never consults). -/
structure AuthDB where
  users : List ModelsA.UserRow
  credentials : List (String × BcryptHash)
  resetTokens : List (String × String × Nat)
deriving DecidableEq

/-- Lookup behind `UserModel.GetByStudentNumber` in the string-keyed model
(the query selects `WHERE id = $1`, and the account identifier is the student
number). -/
def getByStudentNumber (db : AuthDB) (studentNumber : String) :
    Option ModelsA.UserRow :=
  db.users.find? fun r => r.id == studentNumber

/-- Lookup behind `UserModel.GetPasswordHash` in the string-keyed model. -/
def getPasswordHash (db : AuthDB) (studentNumber : String) :
    Option BcryptHash :=
  (db.credentials.find? fun r => r.1 == studentNumber).map (·.2)

/-- HTTP outcome of the string-keyed `AuthHandler.Login`.  `ok` records that
the handler answered 200 with the session cookies and tokens for the user. -/
inductive LoginResultA
  | badRequest
  | unauthorized
  | ok (userId : String)
deriving DecidableEq

/-- Embedding of `AuthHandler.Login` from
`src/backend/internal/api/handlers/auth.go`: non-empty field checks, user
lookup, password check, then success.  The email-verification check is
commented out in this file, so an unverified account with correct credentials
logs in. -/
def login (db : AuthDB) (req : HandlersB.LoginRequest) : LoginResultA :=
  if req.studentNumber == "" || req.password == "" then .badRequest
  else
    match getByStudentNumber db req.studentNumber with
    | none => .unauthorized
    | some user =>
      match getPasswordHash db req.studentNumber with
      | none => .unauthorized
      | some hash =>
        if ¬ checkPassword hash req.password then .unauthorized
        else .ok user.id

/-- HTTP outcome of the string-keyed `AuthHandler.VerifyOTP`. -/
inductive VerifyOTPResultA
  | badRequest
  | okToken (resetToken : String)
deriving DecidableEq

/-- Embedding of `AuthHandler.VerifyOTP` from
`src/backend/internal/api/handlers/auth.go`: after the non-empty field checks
the handler assumes the OTP is correct — it never queries the reset-token
store (`db` is passed to show the independence) — and returns a freshly
generated reset token.  `resetToken` stands for the `GenerateRandomToken`
value. -/
def verifyOTP (db : AuthDB) (email : String) (otp : String)
    (resetToken : String) : VerifyOTPResultA :=
  let _ := db
  if email == "" || otp == "" then .badRequest
  else .okToken resetToken

end HandlersA

/-! ## Authentication middleware
(`src/backend/internal/api/middleware/auth.go`, `src/unnamed/part_000`) -/

namespace Middleware

/-- Outcome of `AuthMiddleware.Authenticate`: either 401 or the request
proceeds with the validated claims injected into the context. -/
inductive AuthOutcome
  | unauthorized
  | proceed (claims : JWTClaims)
deriving DecidableEq

/-- Check of `strings.HasPrefix(bearer, "Bearer ")` from `extractToken`. -/
def hasBearerMarker (s : String) : Bool :=
  "Bearer ".toList.isPrefixOf s.toList

/-- Embedding of `extractToken`: the `Authorization` header wins when it
carries the `Bearer ` marker (the header is the empty string when absent),
otherwise the `access_token` cookie value is used, otherwise the empty
string is returned; `strings.TrimPrefix` removes the seven marker
characters. -/
def extractToken (authHeader : String) (cookie : Option String) : String :=
  if hasBearerMarker authHeader then ⟨authHeader.toList.drop 7⟩
  else
    match cookie with
    | some v => v
    | none => ""

/-- Embedding of `AuthMiddleware.Authenticate`: an empty extracted token is
rejected with 401 before validation runs; otherwise the token is validated
and a validation error is rejected with 401.  The token validation step
(`utils.ValidateJWT` applied to the parsed wire string) is abstracted as the
`checkTok` parameter so that independence from it can be stated. -/
def authenticate (checkTok : String → Except JWTError JWTClaims)
    (authHeader : String) (cookie : Option String) : AuthOutcome :=
  let token := extractToken authHeader cookie
  if token == "" then .unauthorized
  else
    match checkTok token with
    | .error _ => .unauthorized
    | .ok claims => .proceed claims

end Middleware

/-! ## Auxiliary measurements and concrete states used by witnesses and
counterexamples -/

/-- Number of ledger rows stored for one `(user, badge)` pair in the
string-keyed schema (primary key of `user_badges`). -/
def ModelsA.ubCount (db : ModelsA.DB) (userID : String) (badgeID : Nat) : Nat :=
  (db.userBadges.filter fun q => q.1 == userID && q.2 == badgeID).length

/-- String-keyed state for the C1 counterexample: one user at 45 points, the
three seeded badges, the threshold-0 badge already held. -/
def c1dbA : ModelsA.DB :=
  { users := [⟨"u1", 45, true⟩]
    badges := [⟨1, "Freshie Fighter", 0⟩, ⟨2, "Deans Defender", 50⟩,
      ⟨3, "Supreme ISKOlar", 100⟩]
    userBadges := [("u1", 1)] }

/-- Failure oracle for the C1 counterexample: the badge qualification query
errors; everything before it succeeds. -/
def c1failQuery : ModelsA.StepA → Bool :=
  fun s => s == ModelsA.StepA.badgeQueryStep

/-- Minimal integer-keyed state for the C1 witness. -/
def c1dbB : ModelsB.DB :=
  { credentials := []
    users := [⟨7, "2023-00239-MN-0", "Juan", "Cruz", "juan@pup.edu.ph", true,
      45, true⟩]
    emailVerifications := []
    resetTokens := []
    badges := [⟨1, 0⟩, ⟨2, 50⟩, ⟨3, 100⟩]
    userBadges := [(7, 1)]
    nextCredId := 8
    nextResetId := 1 }

/-- Integer-keyed state for the C2 witness: the spec scenario of a user at 45
points holding the threshold-0 badge, with badge thresholds 0, 50 and 100. -/
def c2db : ModelsB.DB :=
  { credentials := []
    users := [⟨7, "2023-00239-MN-0", "Juan", "Cruz", "juan@pup.edu.ph", true,
      45, true⟩]
    emailVerifications := []
    resetTokens := []
    badges := [⟨1, 0⟩, ⟨2, 50⟩, ⟨3, 100⟩]
    userBadges := [(7, 1)]
    nextCredId := 8
    nextResetId := 1 }

/-- String-keyed state for the C3 witness: the user already holds badge 1 and
holds no copy of badge 2. -/
def c3db : ModelsA.DB :=
  { users := [⟨"u1", 45, true⟩]
    badges := [⟨1, "Freshie Fighter", 0⟩, ⟨2, "Deans Defender", 50⟩]
    userBadges := [("u1", 1)] }

/-- Integer-keyed state for the C4 witness: one validly registered account,
email not yet verified, with its bcrypt credential row. -/
def c4dbB : ModelsB.DB :=
  { credentials := [⟨7, "juan@pup.edu.ph", hashPassword "Abcdef1!"⟩]
    users := [⟨7, "2023-00239-MN-0", "Juan", "Cruz", "juan@pup.edu.ph", true,
      0, false⟩]
    emailVerifications := []
    resetTokens := []
    badges := []
    userBadges := []
    nextCredId := 8
    nextResetId := 1 }

/-- String-keyed state for the C4 counterexample: a registered account whose
email is not verified, with matching credentials. -/
def c4dbA : HandlersA.AuthDB :=
  { users := [⟨"2023-00239-MN-0", 0, false⟩]
    credentials := [("2023-00239-MN-0", hashPassword "Passw0rd!")]
    resetTokens := [] }

/-- Integer-keyed state for the C7 witness: exactly one stored, unexpired OTP
row for user 7. -/
def c7dbB : ModelsB.DB :=
  { credentials := []
    users := []
    emailVerifications := []
    resetTokens := [⟨1, 7, "123456", 100⟩]
    badges := []
    userBadges := []
    nextCredId := 1
    nextResetId := 2 }

/-- String-keyed state for the C7 counterexample: the reset-token store is
empty. -/
def c7dbA : HandlersA.AuthDB :=
  { users := [⟨"u1", 0, true⟩]
    credentials := []
    resetTokens := [] }

/-- String-keyed state for the C9 witness: one user with zero points. -/
def c9db : ModelsA.DB :=
  { users := [⟨"u1", 0, true⟩]
    badges := []
    userBadges := [] }

/-! ## Helper lemmas for the vote model -/

namespace MaterialModel

theorem sameKey_updRow (materialId : Nat) (userId : String) (t : VoteType)
    (now : Nat) (r : VoteRow) :
    sameKey materialId userId (updRow materialId userId t now r)
      = sameKey materialId userId r := by
  unfold updRow
  split <;> rfl

theorem updRow_updRow (materialId : Nat) (userId : String) (t1 t2 : VoteType)
    (n1 n2 : Nat) (r : VoteRow) :
    updRow materialId userId t2 n2 (updRow materialId userId t1 n1 r)
      = updRow materialId userId t2 n2 r := by
  unfold updRow
  cases h : sameKey materialId userId r <;> simp [h, sameKey] at * <;> simp_all

theorem any_sameKey_map (rows : List VoteRow) (materialId : Nat)
    (userId : String) (t : VoteType) (now : Nat) :
    (rows.map (updRow materialId userId t now)).any (sameKey materialId userId)
      = rows.any (sameKey materialId userId) := by
  have hc : sameKey materialId userId ∘ updRow materialId userId t now
      = sameKey materialId userId :=
    funext fun r => sameKey_updRow materialId userId t now r
  rw [List.any_map, hc]

theorem keyCount_map_updRow (rows : List VoteRow) (materialId : Nat)
    (userId : String) (t : VoteType) (now : Nat) :
    keyCount (rows.map (updRow materialId userId t now)) materialId userId
      = keyCount rows materialId userId := by
  unfold keyCount
  rw [List.filter_map, List.length_map]
  congr 1
  apply List.filter_congr
  intro r _
  exact sameKey_updRow materialId userId t now r

end MaterialModel

/-- C8: re-voting is last-write-wins — voting `t1` then `t2` by the same user
on the same material yields exactly the state of voting `t2` alone, a key
holding at most one row before a vote holds exactly one row afterwards, and
the derived vote count of the two histories agrees. -/
theorem C8_vote_last_write_wins (rows : List MaterialModel.VoteRow)
    (materialId : Nat) (userId : String) (t1 t2 : MaterialModel.VoteType)
    (n1 n2 : Nat) :
    MaterialModel.vote (MaterialModel.vote rows materialId userId t1 n1)
        materialId userId t2 n2
      = MaterialModel.vote rows materialId userId t2 n2
    ∧ (MaterialModel.keyCount rows materialId userId ≤ 1 →
        MaterialModel.keyCount
          (MaterialModel.vote rows materialId userId t2 n2) materialId userId
          = 1)
    ∧ MaterialModel.getVoteCount
        (MaterialModel.vote (MaterialModel.vote rows materialId userId t1 n1)
          materialId userId t2 n2) materialId
      = MaterialModel.getVoteCount
          (MaterialModel.vote rows materialId userId t2 n2) materialId := by
  have h1 :
      MaterialModel.vote (MaterialModel.vote rows materialId userId t1 n1)
          materialId userId t2 n2
        = MaterialModel.vote rows materialId userId t2 n2 := by
    cases hany : rows.any (MaterialModel.sameKey materialId userId) with
    | true =>
      simp only [MaterialModel.vote, hany, if_true,
        MaterialModel.any_sameKey_map, List.map_map]
      exact List.map_congr_left fun r _ =>
        MaterialModel.updRow_updRow materialId userId t1 t2 n1 n2 r
    | false =>
      have hnew : MaterialModel.sameKey materialId userId
          ⟨materialId, userId, t1, n1⟩ = true := by
        simp [MaterialModel.sameKey]
      have hmem : ∀ r ∈ rows,
          MaterialModel.updRow materialId userId t2 n2 r = r := by
        intro r hr
        have := (List.any_eq_false.mp hany) r hr
        simp [MaterialModel.updRow, this]
      simp only [MaterialModel.vote, hany, List.any_append, hnew,
        List.any_cons, List.any_nil, Bool.false_or, Bool.or_true, Bool.or_false,
        if_true, Bool.false_eq_true, if_false, List.map_append]
      rw [List.map_congr_left hmem]
      simp [MaterialModel.updRow, MaterialModel.sameKey]
  have h2 : MaterialModel.keyCount rows materialId userId ≤ 1 →
      MaterialModel.keyCount
        (MaterialModel.vote rows materialId userId t2 n2) materialId userId
        = 1 := by
    intro hle
    cases hany : rows.any (MaterialModel.sameKey materialId userId) with
    | true =>
      have hge : 1 ≤ MaterialModel.keyCount rows materialId userId := by
        obtain ⟨r, hr, hpr⟩ := List.any_eq_true.mp hany
        have hmem : r ∈ rows.filter (MaterialModel.sameKey materialId userId) :=
          List.mem_filter.mpr ⟨hr, hpr⟩
        have := List.length_pos.mpr (List.ne_nil_of_mem hmem)
        exact this
      simp only [MaterialModel.vote, hany, if_true,
        MaterialModel.keyCount_map_updRow]
      omega
    | false =>
      have h0 : rows.filter (MaterialModel.sameKey materialId userId) = [] :=
        List.filter_eq_nil_iff.mpr fun r hr =>
          (List.any_eq_false.mp hany) r hr
      have hnew : MaterialModel.sameKey materialId userId
          ⟨materialId, userId, t2, n2⟩ = true := by
        simp [MaterialModel.sameKey]
      simp [MaterialModel.vote, hany, MaterialModel.keyCount,
        List.filter_append, h0, hnew]
  exact ⟨h1, h2, by rw [h1]⟩

/-- C8 witness: on the empty vote table, voting once leaves exactly one row
for the pair, instantiating the hypothesis of the middle conjunct. -/
theorem C8_vote_last_write_wins_witness :
    MaterialModel.keyCount ([] : List MaterialModel.VoteRow) 1 "u1" ≤ 1
    ∧ MaterialModel.keyCount
        (MaterialModel.vote [] 1 "u1" MaterialModel.VoteType.downvote 5)
        1 "u1" = 1 :=
  ⟨by decide,
    (C8_vote_last_write_wins [] 1 "u1" MaterialModel.VoteType.upvote
      MaterialModel.VoteType.downvote 3 5).2.1 (by decide)⟩

/-- C10: the middleware takes the token from the `Authorization` header when
it carries the `Bearer ` marker, ignoring the cookie entirely; otherwise it
takes the `access_token` cookie; and when no source yields a token the
request is rejected with 401 for every possible validation function, i.e.
before any claim is examined. -/
theorem C10_extract_token_priority (authHeader : String)
    (cookie : Option String) (v : String)
    (checkTok : String → Except JWTError JWTClaims) :
    (Middleware.hasBearerMarker authHeader = true →
      Middleware.extractToken authHeader cookie = ⟨authHeader.toList.drop 7⟩)
    ∧ (Middleware.hasBearerMarker authHeader = false → cookie = some v →
      Middleware.extractToken authHeader cookie = v)
    ∧ (Middleware.extractToken authHeader cookie = "" →
      Middleware.authenticate checkTok authHeader cookie
        = Middleware.AuthOutcome.unauthorized) := by
  refine ⟨?_, ?_, ?_⟩
  · intro h
    simp [Middleware.extractToken, h]
  · intro h hc
    simp [Middleware.extractToken, h, hc]
  · intro h
    simp [Middleware.authenticate, h]

/-- C10 witness: with both header and cookie set the header value is used;
with neither set the outcome is 401 under an arbitrary validation function
that would accept anything. -/
theorem C10_extract_token_priority_witness :
    Middleware.extractToken "Bearer tok123" (some "cookieTok") = "tok123"
    ∧ Middleware.authenticate
        (fun t => Except.ok ⟨7, true, 99, 0, t⟩) "" none
        = Middleware.AuthOutcome.unauthorized := by
  constructor
  · have h := (C10_extract_token_priority "Bearer tok123" (some "cookieTok")
      "cookieTok" (fun t => Except.ok ⟨7, true, 99, 0, t⟩)).1 (by decide)
    simpa using h
  · exact (C10_extract_token_priority "" none "x"
      (fun t => Except.ok ⟨7, true, 99, 0, t⟩)).2.2 (by decide)

/-! ## Helper lemmas for row updates -/

/-- A `find?` distributes over a row update that does not change the value of
the search predicate. -/
theorem find?_map_preserve {α : Type} (p : α → Bool) (f : α → α)
    (hf : ∀ a, p (f a) = p a) : ∀ l : List α,
    (l.map f).find? p = (l.find? p).map f
  | [] => rfl
  | a :: l => by
    cases h : p a with
    | true =>
      simp [List.find?_cons, hf, h]
    | false =>
      simp [List.find?_cons, hf, h, find?_map_preserve p f hf l]

theorem ModelsA.getPoints_updatePoints (db : ModelsA.DB) (u : String)
    (d p : Int) (h : ModelsA.getPoints db u = some p) :
    ModelsA.getPoints (ModelsA.updatePoints db u d) u = some (p + d) := by
  obtain ⟨r, hr, hp⟩ :
      ∃ r, db.users.find? (fun x => x.id == u) = some r ∧ r.points = p := by
    cases hf : db.users.find? (fun x => x.id == u) with
    | none => simp [ModelsA.getPoints, hf] at h
    | some r => exact ⟨r, rfl, by simpa [ModelsA.getPoints, hf] using h⟩
  have hpred := List.find?_some hr
  have hmap := find?_map_preserve (fun x : ModelsA.UserRow => x.id == u)
    (fun x => if x.id == u then { x with points := x.points + d } else x)
    (fun a => by dsimp only; split <;> rfl) db.users
  unfold ModelsA.getPoints ModelsA.updatePoints
  rw [hmap, hr]
  have hid : r.id = u := by simpa using hpred
  simp [hid, hp]

theorem ModelsB.getPoints_setPointsPlus (db : ModelsB.DB) (u : Nat)
    (d p : Int) (h : ModelsB.getPoints db u = some p) :
    ModelsB.getPoints (ModelsB.setPointsPlus db u d) u = some (p + d) := by
  obtain ⟨r, hr, hp⟩ :
      ∃ r, db.users.find? (fun x => x.id == u) = some r ∧ r.points = p := by
    cases hf : db.users.find? (fun x => x.id == u) with
    | none => simp [ModelsB.getPoints, ModelsB.getByID, hf] at h
    | some r =>
      exact ⟨r, rfl, by simpa [ModelsB.getPoints, ModelsB.getByID, hf] using h⟩
  have hpred := List.find?_some hr
  have hmap := find?_map_preserve (fun x : ModelsB.UserRow => x.id == u)
    (fun x => if x.id == u then { x with points := x.points + d } else x)
    (fun a => by dsimp only; split <;> rfl) db.users
  unfold ModelsB.getPoints ModelsB.getByID ModelsB.setPointsPlus
  rw [hmap, hr]
  have hid : r.id = u := by simpa using hpred
  simp [hid, hp]

theorem ModelsA.getPoints_foldl_updatePoints (u : String) :
    ∀ (ds : List Int) (db : ModelsA.DB) (p : Int),
      ModelsA.getPoints db u = some p →
      ModelsA.getPoints (ds.foldl (fun s d => ModelsA.updatePoints s u d) db) u
        = some (p + ds.sum)
  | [], db, p, h => by simpa using h
  | d :: ds, db, p, h => by
    have h1 := ModelsA.getPoints_updatePoints db u d p h
    have h2 := ModelsA.getPoints_foldl_updatePoints u ds
      (ModelsA.updatePoints db u d) (p + d) h1
    simpa [add_assoc] using h2

/-- C9: starting from a non-negative stored total, any sequence of positive
increments through `UpdatePoints` leaves the stored total equal to the
initial total plus the sum of the deltas, never below the initial total and
never negative. -/
theorem C9_points_nonneg_monotone_sum (ds : List Int) (db : ModelsA.DB)
    (u : String) (p : Int) (hp : ModelsA.getPoints db u = some p)
    (hnn : 0 ≤ p) (hpos : ∀ d ∈ ds, 0 < d) :
    ModelsA.getPoints (ds.foldl (fun s d => ModelsA.updatePoints s u d) db) u
      = some (p + ds.sum)
    ∧ p ≤ p + ds.sum ∧ 0 ≤ p + ds.sum := by
  have hsum : 0 ≤ ds.sum := List.sum_nonneg fun d hd => le_of_lt (hpos d hd)
  exact ⟨ModelsA.getPoints_foldl_updatePoints u ds db p hp,
    by linarith, by linarith⟩

/-- C9 witness: two uploads of five points each take the user from zero to
ten points. -/
theorem C9_points_nonneg_monotone_sum_witness :
    ModelsA.getPoints
      (([5, 5] : List Int).foldl (fun s d => ModelsA.updatePoints s "u1" d)
        c9db) "u1" = some (0 + ([5, 5] : List Int).sum)
    ∧ (0 : Int) ≤ 0 + ([5, 5] : List Int).sum
    ∧ (0 : Int) ≤ 0 + ([5, 5] : List Int).sum :=
  ⟨(C9_points_nonneg_monotone_sum [5, 5] c9db "u1" 0 (by decide) (by decide)
      (by decide)).1,
    (C9_points_nonneg_monotone_sum [5, 5] c9db "u1" 0 (by decide) (by decide)
      (by decide)).2.1,
    (C9_points_nonneg_monotone_sum [5, 5] c9db "u1" 0 (by decide) (by decide)
      (by decide)).2.2⟩

/-- C1 (amended for the transactional implementation): whenever a call of the
part_004 `IncrementPointsAndCheckBadges` fails — at any of its steps — the
stored state after the call is exactly the state before it. -/
theorem C1_increment_atomic (fail : ModelsB.StepB → Bool) (db : ModelsB.DB)
    (u : Nat) (d : Int)
    (h : (ModelsB.incrementPointsAndCheckBadges fail db u d).2 = false) :
    (ModelsB.incrementPointsAndCheckBadges fail db u d).1 = db := by
  by_cases h1 : fail ModelsB.StepB.beginTx
  · simp [ModelsB.incrementPointsAndCheckBadges, h1]
  · cases hp : ModelsB.getPoints db u with
    | none => simp [ModelsB.incrementPointsAndCheckBadges, h1, hp]
    | some p =>
      by_cases h2 : fail ModelsB.StepB.updateReturning
      · simp [ModelsB.incrementPointsAndCheckBadges, h1, hp, h2]
      · by_cases h3 : fail ModelsB.StepB.badgeQuery
        · simp [ModelsB.incrementPointsAndCheckBadges, h1, hp, h2, h3]
        · by_cases h4 : fail ModelsB.StepB.insertBadge
          · simp [ModelsB.incrementPointsAndCheckBadges, h1, hp, h2, h3, h4]
          · by_cases h5 : fail ModelsB.StepB.commitTx
            · simp [ModelsB.incrementPointsAndCheckBadges, h1, hp, h2, h3, h4,
                h5]
            · exfalso
              simp [ModelsB.incrementPointsAndCheckBadges, h1, hp, h2, h3, h4,
                h5] at h

/-- C1 witness: a call rejected at its first step leaves the concrete state
untouched. -/
theorem C1_increment_atomic_witness :
    (ModelsB.incrementPointsAndCheckBadges (fun _ => true) c1dbB 7 5).2 = false
    ∧ (ModelsB.incrementPointsAndCheckBadges (fun _ => true) c1dbB 7 5).1
        = c1dbB :=
  ⟨by decide, C1_increment_atomic (fun _ => true) c1dbB 7 5 (by decide)⟩

/-- C1 counterexample: in the part_005 implementation the point increment
publishes before the badge phase, so a failing qualification query reports an
error while the stored state has already changed — the user sits at 50
points with no badge check committed. -/
theorem C1_counterexample_not_atomic :
    (ModelsA.incrementPointsAndCheckBadges c1failQuery c1dbA "u1" 5).2 = false
    ∧ (ModelsA.incrementPointsAndCheckBadges c1failQuery c1dbA "u1" 5).1
        ≠ c1dbA
    ∧ ModelsA.getPoints
        (ModelsA.incrementPointsAndCheckBadges c1failQuery c1dbA "u1" 5).1 "u1"
        = some 50 := by
  refine ⟨by decide, by decide, by decide⟩

/-- C2: on a successful call of the transactional award operation with prior
total `p` and positive delta `d`, the stored total becomes `p + d` and the
ledger grows by exactly the badges whose threshold is at most `p + d` that
the user did not already hold. -/
theorem C2_award_updates_points_and_badges (db : ModelsB.DB) (u : Nat)
    (p d : Int) (hp : ModelsB.getPoints db u = some p) (hd : 0 < d) :
    (ModelsB.incrementPointsAndCheckBadges (fun _ => false) db u d).2 = true
    ∧ ModelsB.getPoints
        (ModelsB.incrementPointsAndCheckBadges (fun _ => false) db u d).1 u
      = some (p + d)
    ∧ (ModelsB.incrementPointsAndCheckBadges (fun _ => false) db u d).1.userBadges
      = db.userBadges
          ++ (ModelsB.qualifyingBadges db u (p + d)).map fun b => (u, b.id) := by
  have hset := ModelsB.getPoints_setPointsPlus db u d p hp
  refine ⟨?_, ?_, ?_⟩
  · simp [ModelsB.incrementPointsAndCheckBadges, hp]
  · simpa [ModelsB.incrementPointsAndCheckBadges, hp] using hset
  · simp [ModelsB.incrementPointsAndCheckBadges, hp]
    rfl

/-- C2 witness: the spec scenario — a user at 45 points holding the
threshold-0 badge receives five points, reaches 50, and is newly awarded
exactly the threshold-50 badge, while the held badge is not re-awarded. -/
theorem C2_award_updates_points_and_badges_witness :
    ModelsB.getPoints
      (ModelsB.incrementPointsAndCheckBadges (fun _ => false) c2db 7 5).1 7
      = some 50
    ∧ (ModelsB.incrementPointsAndCheckBadges (fun _ => false) c2db 7 5).1.userBadges
      = [(7, 1), (7, 2)] := by
  have h := C2_award_updates_points_and_badges c2db 7 45 5 (by decide)
    (by decide)
  refine ⟨by simpa using h.2.1, ?_⟩
  rw [h.2.2]
  decide

/-- C3: badge insertion through `AssignBadge` is idempotent — inserting a
badge the user already holds returns the unchanged state with a nil error,
and two insertions of one badge starting from a state without it leave
exactly one ledger row for the pair. -/
theorem C3_assign_badge_idempotent (db : ModelsA.DB) (u : String) (b : Nat) :
    (ModelsA.holdsBadge db u b = true →
      ModelsA.assignBadge db u b = (db, true))
    ∧ (ModelsA.ubCount db u b = 0 →
        ModelsA.ubCount
          ((ModelsA.assignBadge (ModelsA.assignBadge db u b).1 u b).1) u b
          = 1) := by
  constructor
  · intro h
    simp [ModelsA.assignBadge, h]
  · intro h0
    have hfilter : db.userBadges.filter
        (fun q => q.1 == u && q.2 == b) = [] := by
      have := List.length_eq_zero.mp h0
      exact this
    have hnone : ModelsA.holdsBadge db u b = false := by
      rw [ModelsA.holdsBadge]
      rw [List.any_eq_false]
      intro q hq
      intro hpq
      have : q ∈ db.userBadges.filter (fun q => q.1 == u && q.2 == b) :=
        List.mem_filter.mpr ⟨hq, hpq⟩
      simp [hfilter] at this
    have hstep1 : ModelsA.assignBadge db u b
        = ({ db with userBadges := db.userBadges ++ [(u, b)] }, true) := by
      simp [ModelsA.assignBadge, hnone]
    have hheld : ModelsA.holdsBadge
        { db with userBadges := db.userBadges ++ [(u, b)] } u b = true := by
      simp [ModelsA.holdsBadge]
    rw [hstep1]
    simp only [ModelsA.assignBadge, hheld, if_true]
    simp [ModelsA.ubCount, List.filter_append, hfilter]

/-- C3 witness: inserting the held badge 1 is a no-op with a nil error, and
inserting the unheld badge 2 twice yields one ledger row. -/
theorem C3_assign_badge_idempotent_witness :
    ModelsA.assignBadge c3db "u1" 1 = (c3db, true)
    ∧ ModelsA.ubCount
        ((ModelsA.assignBadge (ModelsA.assignBadge c3db "u1" 2).1 "u1" 2).1)
        "u1" 2 = 1 :=
  ⟨(C3_assign_badge_idempotent c3db "u1" 1).1 (by decide),
    (C3_assign_badge_idempotent c3db "u1" 2).2 (by decide)⟩

/-- C4 (amended for the part_001 handler): with a well-formed student number,
non-empty correct password and a registered account, a login before email
verification is answered 401 (email not verified), and the same login after
the verification update succeeds with the session tokens. -/
theorem C4_login_verification_gate (db : ModelsB.DB) (secret : String)
    (now : Nat) (req : HandlersB.LoginRequest) (user : ModelsB.UserRow)
    (hash : BcryptHash)
    (hfmt : isValidStudentNumber req.studentNumber = true)
    (hpw : (req.password == "") = false)
    (hu : ModelsB.getByStudentNumber db req.studentNumber = some user)
    (hhash : ModelsB.getPasswordHash db user.id = some hash)
    (hck : checkPassword hash req.password = true) :
    (user.emailVerified = false →
      HandlersB.login db secret now req
        = HandlersB.LoginResult.unauthorizedUnverified)
    ∧ HandlersB.login (ModelsB.verifyEmail db user.id) secret now req
        = HandlersB.LoginResult.ok user.id
            (generateJWT user.id user.isStudent secret 24 now)
            (generateJWT user.id user.isStudent secret 168 now) := by
  constructor
  · intro hunv
    simp [HandlersB.login, hfmt, hpw, hu, hunv]
  · have hmap := find?_map_preserve
      (fun r : ModelsB.UserRow => r.studentNumber == req.studentNumber)
      (fun r => if r.id == user.id then { r with emailVerified := true } else r)
      (fun a => by dsimp only; split <;> rfl) db.users
    have hself : (user.id == user.id) = true := by simp
    have hu2 : ModelsB.getByStudentNumber (ModelsB.verifyEmail db user.id)
        req.studentNumber = some { user with emailVerified := true } := by
      unfold ModelsB.getByStudentNumber ModelsB.verifyEmail
      unfold ModelsB.getByStudentNumber at hu
      rw [hmap, hu]
      simp
    have hhash2 : ModelsB.getPasswordHash (ModelsB.verifyEmail db user.id)
        user.id = some hash := hhash
    simp [HandlersB.login, hfmt, hpw, hu2, hhash2, hck]

/-- C4 witness: the concrete unverified account is rejected with 401 and,
after verification, the same credentials log in with the issued tokens. -/
theorem C4_login_verification_gate_witness :
    HandlersB.login c4dbB "s3cret" 1000 ⟨"2023-00239-MN-0", "Abcdef1!"⟩
      = HandlersB.LoginResult.unauthorizedUnverified
    ∧ HandlersB.login (ModelsB.verifyEmail c4dbB 7) "s3cret" 1000
        ⟨"2023-00239-MN-0", "Abcdef1!"⟩
      = HandlersB.LoginResult.ok 7
          (generateJWT 7 true "s3cret" 24 1000)
          (generateJWT 7 true "s3cret" 168 1000) := by
  have h := C4_login_verification_gate c4dbB "s3cret" 1000
    ⟨"2023-00239-MN-0", "Abcdef1!"⟩
    ⟨7, "2023-00239-MN-0", "Juan", "Cruz", "juan@pup.edu.ph", true, 0, false⟩
    (hashPassword "Abcdef1!") (by decide) (by decide) (by decide) (by decide)
    (by decide)
  exact ⟨h.1 (by decide), h.2⟩

/-- C4 counterexample: the backend-handler iteration has the verification
check commented out, so a registered account that is not email-verified logs
in with 200 and tokens on correct credentials instead of being rejected with
401. -/
theorem C4_counterexample_unverified_login :
    HandlersA.getByStudentNumber c4dbA "2023-00239-MN-0"
      = some ⟨"2023-00239-MN-0", 0, false⟩
    ∧ HandlersA.login c4dbA ⟨"2023-00239-MN-0", "Passw0rd!"⟩
        = HandlersA.LoginResultA.ok "2023-00239-MN-0" := by
  exact ⟨by decide, by decide⟩

/-- C6: token validation returns an error — never a claims value — for a
malformed token, for a token whose header names a non-HMAC algorithm
regardless of its claims, for a token signed with a wrong key regardless of
its claims, and for a token whose expiry has passed. -/
theorem C6_validateJWT_rejects (raw : String) (alg : Alg)
    (claims : JWTClaims) (key secret : String) (sig : SigVal) (now : Nat) :
    isErr (validateJWT (Token.malformed raw) secret now) = true
    ∧ (alg.isHMAC = false →
        isErr (validateJWT (Token.wellFormed alg claims sig) secret now)
          = true)
    ∧ (key ≠ secret →
        isErr (validateJWT
          (Token.wellFormed alg claims (sign alg claims key)) secret now)
          = true)
    ∧ (claims.exp ≤ now →
        isErr (validateJWT (Token.wellFormed alg claims sig) secret now)
          = true) := by
  refine ⟨rfl, ?_, ?_, ?_⟩
  · intro h
    simp [validateJWT, h, isErr]
  · intro hks
    by_cases h : alg.isHMAC
    · have hne : sign alg claims key ≠ sign alg claims secret := by
        simp only [sign, ne_eq, SigVal.mk.injEq, not_and]
        intro _ _
        exact hks
      simp [validateJWT, h, hne, isErr]
    · simp [validateJWT, h, isErr]
  · intro hexp
    by_cases h1 : alg.isHMAC <;>
      by_cases h2 : sig = sign alg claims secret <;>
        simp [validateJWT, h1, h2, hexp, isErr]

/-- C6 witness: a malformed string, an RS256-headed token, a token signed
with the wrong key while unexpired, and an expired correctly signed token are
all rejected concretely. -/
theorem C6_validateJWT_rejects_witness :
    isErr (validateJWT (Token.malformed "notajwt") "k2" 20) = true
    ∧ isErr (validateJWT
        (Token.wellFormed Alg.RS256 ⟨1, true, 99, 0, "1"⟩
          (sign Alg.RS256 ⟨1, true, 99, 0, "1"⟩ "k2")) "k2" 20) = true
    ∧ isErr (validateJWT
        (Token.wellFormed Alg.HS256 ⟨1, true, 99, 0, "1"⟩
          (sign Alg.HS256 ⟨1, true, 99, 0, "1"⟩ "k1")) "k2" 20) = true
    ∧ isErr (validateJWT
        (Token.wellFormed Alg.HS256 ⟨1, true, 10, 0, "1"⟩
          (sign Alg.HS256 ⟨1, true, 10, 0, "1"⟩ "k2")) "k2" 20) = true := by
  refine ⟨(C6_validateJWT_rejects "notajwt" Alg.HS256 ⟨1, true, 99, 0, "1"⟩
      "k1" "k2" (sign Alg.HS256 ⟨1, true, 99, 0, "1"⟩ "k1") 20).1,
    (C6_validateJWT_rejects "x" Alg.RS256 ⟨1, true, 99, 0, "1"⟩ "k1" "k2"
      (sign Alg.RS256 ⟨1, true, 99, 0, "1"⟩ "k2") 20).2.1 (by decide),
    (C6_validateJWT_rejects "x" Alg.HS256 ⟨1, true, 99, 0, "1"⟩ "k1" "k2"
      (sign Alg.HS256 ⟨1, true, 99, 0, "1"⟩ "k1") 20).2.2.1 (by decide),
    (C6_validateJWT_rejects "x" Alg.HS256 ⟨1, true, 10, 0, "1"⟩ "k1" "k2"
      (sign Alg.HS256 ⟨1, true, 10, 0, "1"⟩ "k2") 20).2.2.2 (by decide)⟩

/-- C7 (amended for the model layer): the part_004 VerifyOTP succeeds exactly
when a stored, unexpired token row matches the user and OTP, and when exactly
one stored row matches, a second consumption of the same token fails because
the matching row was deleted. -/
theorem C7_verify_otp_single_use (db : ModelsB.DB) (now : Nat) (userID : Nat)
    (otp : String) :
    ((ModelsB.verifyOTP db now userID otp).2 = true ↔
      db.resetTokens.any (ModelsB.otpMatches now userID otp) = true)
    ∧ ((db.resetTokens.filter (ModelsB.otpMatches now userID otp)).length = 1 →
        (ModelsB.verifyOTP (ModelsB.verifyOTP db now userID otp).1 now userID
          otp).2 = false) := by
  constructor
  · cases hf : db.resetTokens.find? (ModelsB.otpMatches now userID otp) with
    | none =>
      have hall := List.find?_eq_none.mp hf
      constructor
      · intro h
        simp [ModelsB.verifyOTP, hf] at h
      · intro h
        obtain ⟨r, hr, hpr⟩ := List.any_eq_true.mp h
        exact absurd hpr (hall r hr)
    | some r =>
      constructor
      · intro _
        exact List.any_eq_true.mpr ⟨r, List.mem_of_find?_eq_some hf,
          List.find?_some hf⟩
      · intro _
        simp [ModelsB.verifyOTP, hf]
  · intro hone
    cases hf : db.resetTokens.find? (ModelsB.otpMatches now userID otp) with
    | none =>
      exfalso
      have hall := List.find?_eq_none.mp hf
      have hnil : db.resetTokens.filter (ModelsB.otpMatches now userID otp)
          = [] := List.filter_eq_nil_iff.mpr hall
      rw [hnil] at hone
      simp at hone
    | some r =>
      obtain ⟨a, ha⟩ := List.length_eq_one.mp hone
      have hrmem : r ∈ db.resetTokens.filter
          (ModelsB.otpMatches now userID otp) :=
        List.mem_filter.mpr ⟨List.mem_of_find?_eq_some hf,
          List.find?_some hf⟩
      have hra : r = a := by
        rw [ha] at hrmem
        simpa using hrmem
      have hnone : (db.resetTokens.filter fun r2 => r2.id != r.id).find?
          (ModelsB.otpMatches now userID otp) = none := by
        rw [List.find?_eq_none]
        intro x hx hpx
        have hx1 := List.mem_filter.mp hx
        have hxf : x ∈ db.resetTokens.filter
            (ModelsB.otpMatches now userID otp) :=
          List.mem_filter.mpr ⟨hx1.1, hpx⟩
        have hxa : x = a := by
          rw [ha] at hxf
          simpa using hxf
        have hxr : (x.id != r.id) = true := hx1.2
        rw [hxa, ← hra] at hxr
        simp at hxr
      simp [ModelsB.verifyOTP, hf, hnone]

/-- C7 witness: the single stored OTP row is consumed on first use and the
second use of the same OTP fails. -/
theorem C7_verify_otp_single_use_witness :
    (ModelsB.verifyOTP c7dbB 50 7 "123456").2 = true
    ∧ (ModelsB.verifyOTP (ModelsB.verifyOTP c7dbB 50 7 "123456").1 50 7
        "123456").2 = false :=
  ⟨(C7_verify_otp_single_use c7dbB 50 7 "123456").1.mpr (by decide),
    (C7_verify_otp_single_use c7dbB 50 7 "123456").2 (by decide)⟩

/-- C7 counterexample: the backend-handler VerifyOTP never consults the
reset-token store — it succeeds and hands out a reset token although no OTP
row is stored at all. -/
theorem C7_counterexample_otp_not_checked :
    c7dbA.resetTokens = []
    ∧ HandlersA.verifyOTP c7dbA "juan@pup.edu.ph" "123456" "freshTok"
        = HandlersA.VerifyOTPResultA.okToken "freshTok" :=
  ⟨rfl, by decide⟩

end ISKOnnect
